import Mathlib

/- Verification of the Helply onboarding-assistant core: the step detector and
   guidance selector (src/Backend/guidance_generator.py), the URL-based step
   heuristic and progress reconciliation (src/Backend/app.py), the action
   matcher (src/Backend/action_matcher.py), and the task-store update policy
   (src/Backend/crm_simple.py).  Python strings are modelled as Lean `String`,
   Python ints as `ℤ`, Python floats (confidence scores) as `ℚ`, dictionaries
   with a fixed field set as structures with `Option` fields where the code
   distinguishes a missing key from a present one. -/

/-- Python `str.lower()` (character-wise case folding). -/
def lowerStr (s : String) : String := String.mk (s.toList.map Char.toLower)

/-- Python truthiness of a string: non-empty. -/
def strEmpty (s : String) : Bool := s.toList.isEmpty

/-- Python `p in s` on lists of characters: substring containment,
    with the empty pattern contained in everything. -/
def containsSubAux (p : List Char) : List Char → Bool
  | [] => p.isEmpty
  | c :: rest => (List.isPrefixOf p (c :: rest)) || containsSubAux p rest

/-- Python `p in s` on strings. -/
def containsSub (p s : String) : Bool := containsSubAux p.toList s.toList

/-- Python `s.replace('*','')` as used on page patterns: drop every `*`. -/
def removeStars (s : String) : String := String.mk (s.toList.filter (fun c => c ≠ '*'))

/-- One selector entry of a step in the knowledge base.  The Python code
    distinguishes plain strings, dicts (`isinstance(sel, dict)`), and any other
    YAML value, which it silently skips (`mal`). -/
inductive Selector where
  | strSel (s : String)
  | objSel (selector : Option String) (message : Option String) (required : Bool)
  | mal
deriving DecidableEq

/-- One step of a task definition (a YAML mapping read with `.get`).
    `message` is `Option` because the code uses two different defaults for it
    (`''` in most places, the definition title at the tooltip fallback). -/
structure StepDef where
  message : Option String := none
  action : Option String := none
  selectors : List Selector := []
  page_pattern : String := ""
  completion_indicators : List String := []
  tip : Option String := none
deriving DecidableEq

/-- A task definition from the knowledge base. -/
structure ActionDef where
  id : Option String := none
  title : Option String := none
  steps : List StepDef := []
deriving DecidableEq

/-- One platform's entry in the knowledge base (`platforms[p]['actions']`);
    dict iteration/insertion order is modelled by list order. -/
structure PlatformData where
  actions : List (String × ActionDef) := []
deriving DecidableEq

/-- The knowledge base (`kb['platforms']`). -/
structure KB where
  platforms : List (String × PlatformData) := []
deriving DecidableEq

/-- The request context handed to the guidance generator
    (`context.get(...)` keys used by `detect_current_step`).
    `current_step` is `Option` mirroring `context.get('current_step', 0)`. -/
structure PageCtx where
  url : String := ""
  page_title : String := ""
  visible_text : String := ""
  dom_elements : List String := []
  current_step : Option ℤ := none
  previous_actions : List String := []
deriving DecidableEq

/-- guidance_generator.py lines 116-121: the page-pattern rule of one step,
    against the already lower-cased URL.  The truthiness test is on the
    lower-cased pattern before stripping `*`. -/
def stepPatternFires (s : StepDef) (ul : String) : Bool :=
  let pp := lowerStr s.page_pattern
  (!strEmpty pp) && containsSub (removeStars pp) ul

/-- guidance_generator.py lines 124-134: the completion-indicator rule of one
    step against visible text and DOM element descriptors (case-insensitive). -/
def indicatorFires (s : StepDef) (ctx : PageCtx) : Bool :=
  (!s.completion_indicators.isEmpty) &&
  s.completion_indicators.any (fun ind =>
    let il := lowerStr ind
    containsSub il (lowerStr ctx.visible_text) ||
    ctx.dom_elements.any (fun el => containsSub il (lowerStr el)))

/-- The `for i, step in enumerate(steps)` loop of `detect_current_step`
    (guidance_generator.py lines 115-134): first positive match wins; a
    page-pattern match yields `i`, an indicator match yields
    `min(i + 1, len(steps) - 1)`. -/
def detectLoop (ul : String) (ctx : PageCtx) (total : ℤ) : ℤ → List StepDef → Option ℤ
  | _, [] => none
  | i, s :: rest =>
    if stepPatternFires s ul then some i
    else if indicatorFires s ctx then some (min (i + 1) (total - 1))
    else detectLoop ul ctx total (i + 1) rest

/-- `GuidanceGenerator.detect_current_step` (guidance_generator.py lines
    110-136): run the rule loop; with no match fall back to
    `context.get('current_step', 0)`. -/
def detect_current_step (adef : ActionDef) (ctx : PageCtx) : ℤ :=
  (detectLoop (lowerStr ctx.url) ctx (adef.steps.length : ℤ) 0 adef.steps).getD
    (ctx.current_step.getD 0)

/-- guidance_generator.py lines 155-162: the step index `generate_guidance`
    actually uses — the detected step if it is strictly ahead of the caller's
    `current_step`, else `current_step`, clamped into `[0, len(steps)-1]`. -/
def stepIndexOf (adef : ActionDef) (ctx : PageCtx) (current_step : ℤ) : ℤ :=
  let detected := detect_current_step adef ctx
  let si := if current_step < detected then detected else current_step
  min (max si 0) ((adef.steps.length : ℤ) - 1)

/-- The resolved step index for a stored progress value, wired the way
    app.py lines 213-217 call it: the stored `steps_completed` is written into
    the context (`context_dict['current_step'] = ...`) and also passed as the
    `current_step` argument. -/
def resolvedStepIndex (adef : ActionDef) (ctx : PageCtx) (stored : ℤ) : ℤ :=
  stepIndexOf adef { ctx with current_step := some stored } stored

/-- C6 counterexample context: a context whose stored step is 5. -/
def ctxStored5 : PageCtx := { current_step := some 5 }

/-- C6: the claim says the detector returns 0 on a task with an empty `steps`
    list for every context; the code instead falls back to the stored step of
    the context (`context.get('current_step', 0)`), which is 5 here, not 0. -/
theorem detect_empty_steps_returns_stored :
    detect_current_step { steps := [] } ctxStored5 ≠ 0 := by decide

/-- C6 (amended): on a task definition whose `steps` list is empty the
    detector raises no exception and returns the context's stored
    `current_step` value, defaulting to 0 when the context carries none. -/
theorem detect_empty_steps_returns_context_step (adef : ActionDef) (ctx : PageCtx)
    (h : adef.steps = []) :
    detect_current_step adef ctx = ctx.current_step.getD 0 := by
  simp [detect_current_step, h, detectLoop]

/-- C6 witness: a context with no stored step resolves to 0 on an empty task. -/
theorem detect_empty_steps_returns_context_step_witness :
    detect_current_step { steps := [] } { url := "https://github.com" } = 0 := by
  have h := detect_empty_steps_returns_context_step { steps := [] }
    { url := "https://github.com" } rfl
  simpa using h

/-- C1 counterexample definition: a single declarative-rule-free step. -/
def plainStepDef : ActionDef := { steps := [{}] }

/-- C1: the claim says the resolved index is never below the stored index for
    every stored index; but clamping to `[0, len(steps)-1]` pulls a stored
    index of `1` (legal under the data-model invariant
    `steps_completed ≤ total_steps` for this one-step task) down to `0`. -/
theorem resolved_step_regresses_at_full_progress :
    resolvedStepIndex plainStepDef {} 1 < 1 := by decide

/-- C1 (amended): for a stored step index inside the valid range
    `[0, len(steps)-1]` the resolved index never regresses below it and stays
    inside the range, so a sequence of snapshots whose stored index starts in
    range yields non-decreasing resolved indices. -/
theorem resolved_step_monotone_in_range (adef : ActionDef) (ctx : PageCtx) (stored : ℤ)
    (h0 : 0 ≤ stored) (h1 : stored ≤ (adef.steps.length : ℤ) - 1) :
    stored ≤ resolvedStepIndex adef ctx stored ∧
      resolvedStepIndex adef ctx stored ≤ (adef.steps.length : ℤ) - 1 := by
  unfold resolvedStepIndex stepIndexOf
  set d := detect_current_step adef { ctx with current_step := some stored } with hd
  by_cases h : stored < d <;> simp only [h, if_true, if_false] <;> omega

/-- C1 witness: a two-step task at stored index 1 resolves to exactly 1. -/
theorem resolved_step_monotone_in_range_witness :
    1 ≤ resolvedStepIndex { steps := [{}, {}] } {} 1 ∧
      resolvedStepIndex { steps := [{}, {}] } {} 1 ≤ (2 : ℤ) - 1 := by
  have h := resolved_step_monotone_in_range { steps := [{}, {}] } {} 1
    (by decide) (by decide)
  simpa using h

/-- Skipping a run of steps on which neither rule fires just advances the
    loop counter. -/
theorem detectLoop_append_of_no_fire (ul : String) (ctx : PageCtx) (total : ℤ)
    (l : List StepDef) :
    ∀ (pre : List StepDef) (i : ℤ),
      (∀ t ∈ pre, stepPatternFires t ul = false ∧ indicatorFires t ctx = false) →
      detectLoop ul ctx total i (pre ++ l) = detectLoop ul ctx total (i + pre.length) l := by
  intro pre
  induction pre with
  | nil => intro i _; simp [detectLoop]
  | cons t pre' ih =>
    intro i hpre
    have ht := hpre t (by simp)
    simp only [List.cons_append, detectLoop, ht.1, ht.2, Bool.false_eq_true, if_false,
      List.append_eq]
    rw [ih (i + 1) (fun t' h' => hpre t' (by simp [h']))]
    congr 1
    simp only [List.length_cons]
    push_cast
    ring

/-- C2 counterexample: step 0 carries both a matching `page_pattern` and a
    matching completion indicator; the code checks the pattern first and
    returns 0, while the claim (no earlier step matched, an indicator of step
    0 matches) demands `min(0+1, 2-1) = 1`. -/
def patternAndIndicatorStep : StepDef :=
  { page_pattern := "/new", completion_indicators := ["done"] }

/-- C2 counterexample context: URL hits the pattern, text hits the indicator. -/
def ctxPatternAndIndicator : PageCtx :=
  { url := "https://github.com/new", visible_text := "done" }

/-- C2: at this input no step precedes step 0, step 0 has a completion
    indicator contained in the visible text, yet the detector returns 0
    (its page-pattern rule wins), not `min(0+1, len(steps)-1) = 1`. -/
theorem indicator_shadowed_by_page_pattern :
    indicatorFires patternAndIndicatorStep ctxPatternAndIndicator = true ∧
      detect_current_step { steps := [patternAndIndicatorStep, {}] }
        ctxPatternAndIndicator ≠ 1 := by decide

/-- C2 (amended): if no rule of any earlier step fired, step `i`'s own
    page-pattern rule did not fire, and one of step `i`'s completion
    indicators occurs (case-insensitively) in the visible text or a DOM
    element descriptor, the detector returns `min(i + 1, len(steps) - 1)`. -/
theorem indicator_match_advances_step (adef : ActionDef) (ctx : PageCtx)
    (pre : List StepDef) (s : StepDef) (post : List StepDef)
    (hsteps : adef.steps = pre ++ s :: post)
    (hpre : ∀ t ∈ pre, stepPatternFires t (lowerStr ctx.url) = false ∧
      indicatorFires t ctx = false)
    (hp : stepPatternFires s (lowerStr ctx.url) = false)
    (hi : indicatorFires s ctx = true) :
    detect_current_step adef ctx =
      min ((pre.length : ℤ) + 1) ((adef.steps.length : ℤ) - 1) := by
  unfold detect_current_step
  rw [hsteps, detectLoop_append_of_no_fire _ _ _ _ _ _ hpre]
  simp [detectLoop, hp, hi, hsteps]

/-- C2 witness: a two-step task whose first step's indicator appears in the
    DOM advances to step `min(1, 1) = 1`. -/
theorem indicator_match_advances_step_witness :
    detect_current_step
      { steps := [{ completion_indicators := ["file-navigation"] }, {}] }
      { url := "https://github.com/u/r", dom_elements := ["nav File-Navigation bar"] } = 1 := by
  have h := indicator_match_advances_step
    { steps := [{ completion_indicators := ["file-navigation"] }, {}] }
    { url := "https://github.com/u/r", dom_elements := ["nav File-Navigation bar"] }
    [] { completion_indicators := ["file-navigation"] } [{}]
    rfl (by simp) (by decide) (by decide)
  simpa using h

/-- Python `s.split('/')` (empty string yields `[""]`). -/
def splitSlashAux : List Char → List Char → List String
  | [], acc => [String.mk acc.reverse]
  | c :: rest, acc =>
    if c = '/' then String.mk acc.reverse :: splitSlashAux rest []
    else splitSlashAux rest (c :: acc)

/-- Python `s.split('/')`. -/
def splitSlash (s : String) : List String := splitSlashAux s.toList []

/-- Python `s.replace(p, '')` (all occurrences, left to right); the fuel is
    the input length, which bounds the recursion exactly. -/
def pyRemoveAllAux (p : List Char) : Nat → List Char → List Char
  | 0, s => s
  | _ + 1, [] => []
  | fuel + 1, c :: rest =>
    if !p.isEmpty && List.isPrefixOf p (c :: rest) then
      pyRemoveAllAux p fuel (List.drop p.length (c :: rest))
    else c :: pyRemoveAllAux p fuel rest

/-- Python `s.replace(p, '')`. -/
def pyRemoveAll (p s : String) : String :=
  String.mk (pyRemoveAllAux p.toList s.toList.length s.toList)

/-- Python `s.endswith(suf)`. -/
def strEndsWith (suf s : String) : Bool :=
  List.isPrefixOf suf.toList.reverse s.toList.reverse

/-- app.py line 313: the URL path segments used by the GitHub heuristic —
    strip the scheme, split on `/`, drop empty segments and `github.com`. -/
def githubParts (url : String) : List String :=
  (splitSlash (pyRemoveAll "http://" (pyRemoveAll "https://" (lowerStr url)))).filter
    (fun p => !strEmpty p && p ≠ "github.com")

/-- `detect_step_from_url` (app.py lines 304-330): the platform-specific
    GitHub "create repository" heuristic layered over the stored step. -/
def detect_step_from_url (platform action_id url : String) (current_step : ℤ) : ℤ :=
  let ul := lowerStr url
  let _ := platform
  if containsSub "github.com" ul = true ∧ containsSub "repo" (lowerStr action_id) = true then
    if 2 ≤ (githubParts url).length ∧ containsSub "/new" ul = false ∧
        containsSub "/repositories" ul = false then 3
    else if containsSub "/new" ul = true then max current_step 1
    else if strEndsWith "github.com" ul = true ∨ strEndsWith "github.com/" ul = true then 0
    else current_step
  else current_step

/-- Modelled from the spec: the knowledge-base YAML file (`action_kb.yaml`)
    is not part of the sources, so the GitHub "create repository" task
    definition is taken from spec §8 Scenario A — steps
    `[{page_pattern:"/new"}, {completion_indicators:["file-navigation"]}]`
    with `total_steps = 2`. -/
def createRepositoryDef : ActionDef :=
  { id := some "github_create_repository",
    title := some "Create Your First GitHub Repository",
    steps := [ { page_pattern := "/new" },
               { completion_indicators := ["file-navigation"] } ] }

/-- C3: `https://github.com/alice/newrepo` is a two-segment path on the
    platform's domain and neither segment is a reserved page, yet because the
    code tests `'/new' not in url` as a raw substring, the repository name
    `newrepo` makes it fall through to the `/new` branch and return
    `max(0, 1) = 1`, which is below the 2 steps of the create-repository
    definition — no completion is signalled, contradicting the claim. -/
theorem github_new_substring_blocks_completion :
    githubParts "https://github.com/alice/newrepo" = ["alice", "newrepo"] ∧
      detect_step_from_url "github" "create_repository"
        "https://github.com/alice/newrepo" 0 = 1 ∧
      ¬ ((createRepositoryDef.steps.length : ℤ) ≤ 1) := by decide

/-- C3 (amended): for a "create repository" task (`'repo' in action_id`),
    any URL mentioning the platform domain whose computed path has at least
    two segments and which does not contain `/new` or `/repositories` as a
    substring makes the heuristic return 3 — at or past the last step of the
    spec-modelled two-step definition — regardless of the stored step. -/
theorem github_two_segment_completion (platform action_id url : String) (current_step : ℤ)
    (hdom : containsSub "github.com" (lowerStr url) = true)
    (hrepo : containsSub "repo" (lowerStr action_id) = true)
    (hparts : 2 ≤ (githubParts url).length)
    (hnew : containsSub "/new" (lowerStr url) = false)
    (hrepos : containsSub "/repositories" (lowerStr url) = false) :
    detect_step_from_url platform action_id url current_step = 3 ∧
      (createRepositoryDef.steps.length : ℤ) ≤ 3 := by
  refine ⟨?_, by decide⟩
  unfold detect_step_from_url
  simp [hdom, hrepo, hparts, hnew, hrepos]

/-- C3 witness: a freshly created repository page completes the task even
    from stored step 0. -/
theorem github_two_segment_completion_witness :
    detect_step_from_url "github" "github_create_repository"
      "https://github.com/sadreammm/test1" 0 = 3 ∧
      (createRepositoryDef.steps.length : ℤ) ≤ 3 :=
  github_two_segment_completion "github" "github_create_repository"
    "https://github.com/sadreammm/test1" 0 (by decide) (by decide) (by decide)
    (by decide) (by decide)

/-- First-match association-list lookup: Python `d[k]` guarded by `k in d`. -/
def lookupKey {α : Type} (l : List (String × α)) (k : String) : Option α :=
  (l.find? (fun kv => kv.1 == k)).map Prod.snd

/-- Python `s.replace(p, '', 1)`: drop the first occurrence of `p`. -/
def pyRemoveFirstAux (p : List Char) : List Char → List Char
  | [] => []
  | c :: rest =>
    if List.isPrefixOf p (c :: rest) then List.drop p.length (c :: rest)
    else c :: pyRemoveFirstAux p rest

/-- Python `s.replace(p, '', 1)`. -/
def pyRemoveFirst (p s : String) : String :=
  String.mk (pyRemoveFirstAux p.toList s.toList)

/-- The suffix after the first occurrence of `p`, if any. -/
def afterFirstAux (p : List Char) : List Char → Option (List Char)
  | [] => if p.isEmpty then some [] else none
  | c :: rest =>
    if List.isPrefixOf p (c :: rest) then some (List.drop p.length (c :: rest))
    else afterFirstAux p rest

/-- Python `re.search(x + '.*' + y, s)` for literal `x`, `y`: an occurrence of
    `x` followed later by an occurrence of `y`. -/
def inOrder (x y s : String) : Bool :=
  match afterFirstAux x.toList s.toList with
  | none => false
  | some rest => containsSubAux y.toList rest

/-- guidance_generator.py lines 91-92: lower-case and drop `_` and `-`. -/
def dropSeps (s : String) : String :=
  String.mk ((lowerStr s).toList.filter (fun c => c ≠ '_' && c ≠ '-'))

/-- `GuidanceGenerator._fuzzy_match` (guidance_generator.py lines 90-108). -/
def fuzzyMatch (action_part target : String) : Bool :=
  let a := dropSeps action_part
  let b := dropSeps target
  if containsSub a b || containsSub b a then true
  else
    (inOrder "repo" "creation" a && inOrder "create" "repository" b) ||
    (inOrder "create" "repository" a && inOrder "repo" "creation" b) ||
    (inOrder "pull" "request" a && inOrder "create" "pr" b) ||
    (inOrder "create" "pr" a && inOrder "pull" "request" b) ||
    (inOrder "issue" "creation" a && inOrder "create" "issue" b) ||
    (inOrder "create" "issue" a && inOrder "issue" "creation" b)

/-- guidance_generator.py lines 68-79: the per-entry tests of the
    `action_part` loop, in source order (key match, id match, fuzzy match). -/
def actionPartMatches (action_part : String) (k : String) (v : ActionDef) : Bool :=
  (k == action_part || containsSub action_part k) ||
  (v.id == some action_part || containsSub action_part (v.id.getD "")) ||
  (fuzzyMatch action_part k || fuzzyMatch action_part (v.id.getD ""))

/-- guidance_generator.py lines 81-85: the final cross-platform scan. -/
def crossSearch (kb : KB) (action_id : String) : Option ActionDef :=
  kb.platforms.findSome? (fun pp =>
    (pp.2.actions.find? (fun kv => kv.2.id == some action_id || kv.1 == action_id)).map
      Prod.snd)

/-- `GuidanceGenerator.get_action_definition` (guidance_generator.py lines
    45-88): direct key, then id field, then (when `action_id` has a `_`)
    the stripped `action_part` loop, then the cross-platform scan. -/
def get_action_definition (kb : KB) (platform action_id : String) : Option ActionDef :=
  let platform_key := String.mk (platform.toList.takeWhile (fun c => c ≠ '.'))
  match lookupKey kb.platforms platform_key with
  | some pdata =>
    match lookupKey pdata.actions action_id with
    | some v => some v
    | none =>
      match (pdata.actions.find? (fun kv => kv.2.id == some action_id)).map Prod.snd with
      | some v => some v
      | none =>
        if containsSub "_" action_id then
          let action_part := pyRemoveFirst (platform_key ++ "_") action_id
          match (pdata.actions.find? (fun kv =>
              actionPartMatches action_part kv.1 kv.2)).map Prod.snd with
          | some v => some v
          | none => crossSearch kb action_id
        else crossSearch kb action_id
  | none => crossSearch kb action_id

/-- The `KBActionItem` dataclass (guidance_generator.py lines 13-19). -/
structure KBActionItem where
  selector : String
  action_type : String := "highlight"
  message : String := ""
  priority : ℤ := 3
  alternatives : List String := []
deriving DecidableEq

/-- The `KBGuidance` dataclass (guidance_generator.py lines 22-30). -/
structure KBGuidance where
  actions : List KBActionItem
  tip : Option String := none
  explanation : Option String := none
  confidence : ℚ := 9/10
  next_step_prediction : Option String := none
  step_description : Option String := none
  guidance_text : Option String := none
deriving DecidableEq

/-- Python `a or d` for an optional string `a` and string default `d`
    (an empty string is falsy). -/
def pyOrD (a : Option String) (d : String) : String :=
  match a with
  | some s => if strEmpty s then d else s
  | none => d

/-- Python `a or b` for two optional strings. -/
def pyOrOpt (a b : Option String) : Option String :=
  match a with
  | some s => if strEmpty s then b else some s
  | none => b

/-- guidance_generator.py lines 174-192: one overlay action per selector;
    plain strings and dicts are handled, anything else is skipped. -/
def actionOfSel (step : StepDef) : Selector → Option KBActionItem
  | .strSel s =>
    some { selector := s, action_type := step.action.getD "highlight",
           message := step.message.getD "", priority := 3 }
  | .objSel sel msg req =>
    some { selector := sel.getD "body", action_type := step.action.getD "highlight",
           message := pyOrD msg (step.message.getD ""),
           priority := if req then 4 else 3 }
  | .mal => none

/-- The action list built from the resolved step's selectors. -/
def buildActions (step : StepDef) : List KBActionItem :=
  step.selectors.filterMap (actionOfSel step)

/-- guidance_generator.py lines 194-201: when no selector produced an action,
    append the synthetic page-root tooltip. -/
def withFallback (adef : ActionDef) (step : StepDef)
    (acts : List KBActionItem) : List KBActionItem :=
  if acts.isEmpty then
    [{ selector := "body", action_type := "tooltip",
       message := step.message.getD (adef.title.getD "Proceed"), priority := 2 }]
  else acts

/-- `GuidanceGenerator.generate_guidance` (guidance_generator.py lines
    138-210). -/
def generate_guidance (kb : KB) (platform action_id : String) (ctx : PageCtx)
    (current_step : ℤ) : KBGuidance :=
  match get_action_definition kb platform action_id with
  | none =>
    { actions := [{ selector := "body",
                    action_type := "tooltip",
                    message := "Proceed with " ++ action_id,
                    priority := 3 }],
      tip := some "Navigate to the appropriate page to continue",
      explanation := some ("Looking for guidance for " ++ action_id),
      guidance_text := some ("Please navigate to the correct page to continue with "
        ++ action_id) }
  | some adef =>
    if adef.steps.isEmpty then
      { actions := [{ selector := "body",
                      action_type := "tooltip",
                      message := "No steps defined",
                      priority := 3 }],
        tip := none }
    else
      let si := stepIndexOf adef ctx current_step
      let step := adef.steps.getD si.toNat {}
      { actions := withFallback adef step (buildActions step),
        tip := pyOrOpt step.tip adef.title,
        explanation := adef.title,
        confidence := 95/100,
        step_description := some (step.message.getD ""),
        guidance_text := some (step.message.getD "") }

/-- C5: the missing-definition fallback's tip is the static string
    "Navigate to the appropriate page to continue" — present, not absent as
    the claim states. -/
theorem fallback_guidance_tip_present :
    (generate_guidance {} "github" "deploy_env" {} 0).tip ≠ none := by decide

/-- C5 (amended): for every (platform, action_id) with no matching
    definition, the guidance selector returns (it cannot raise) exactly one
    synthetic tooltip action whose message names the requested action id,
    and the tip is the static navigation hint (present). -/
theorem missing_definition_fallback (kb : KB) (platform action_id : String)
    (ctx : PageCtx) (current_step : ℤ)
    (h : get_action_definition kb platform action_id = none) :
    (generate_guidance kb platform action_id ctx current_step).actions =
      [{ selector := "body", action_type := "tooltip",
         message := "Proceed with " ++ action_id, priority := 3, alternatives := [] }] ∧
      (generate_guidance kb platform action_id ctx current_step).tip =
        some "Navigate to the appropriate page to continue" := by
  simp [generate_guidance, h]

/-- C5 witness: a lookup in the empty knowledge base takes the fallback. -/
theorem missing_definition_fallback_witness :
    (generate_guidance {} "slack" "send_message" {} 0).actions =
      [{ selector := "body", action_type := "tooltip",
         message := "Proceed with " ++ "send_message", priority := 3, alternatives := [] }] ∧
      (generate_guidance {} "slack" "send_message" {} 0).tip =
        some "Navigate to the appropriate page to continue" :=
  missing_definition_fallback {} "slack" "send_message" {} 0 (by decide)

/-- The selector-derived action list plus the synthetic fallback is never
    empty. -/
theorem withFallback_length (adef : ActionDef) (step : StepDef)
    (acts : List KBActionItem) : 1 ≤ (withFallback adef step acts).length := by
  cases acts <;> simp [withFallback]

/-- C10: every branch of the guidance selector — missing definition, empty
    steps, selector-built actions, and the zero-selector tooltip fallback —
    returns at least one overlay action. -/
theorem guidance_always_has_action (kb : KB) (platform action_id : String)
    (ctx : PageCtx) (current_step : ℤ) :
    1 ≤ (generate_guidance kb platform action_id ctx current_step).actions.length := by
  unfold generate_guidance
  cases h : get_action_definition kb platform action_id with
  | none => simp
  | some adef =>
    by_cases hs : adef.steps = []
    · simp [hs]
    · simp only [List.isEmpty_iff, hs, if_false]
      exact withFallback_length _ _ _

/-- The fields of a task instance read by the reconciliation code in
    `get_guidance` (app.py lines 240-268). -/
structure TaskInst where
  steps_completed : ℤ
  total_steps : ℤ
deriving DecidableEq

/-- The observable decisions of app.py lines 240-268: whether an
    `update_task` write is enqueued (and with which status), whether the
    in-memory `steps_completed` is advanced, and whether the completion
    branch enqueues a `delete_task`. -/
structure ReconcileOut where
  updateRequested : Bool
  updateStatus : String
  deleteRequested : Bool
  newStepsCompleted : ℤ
  taskComplete : Bool
deriving DecidableEq

/-- app.py lines 246-268: the progress reconciliation performed on the
    detected step. -/
def reconcile (task : TaskInst) (detected : ℤ) : ReconcileOut :=
  { updateRequested := decide (task.steps_completed < detected),
    updateStatus := if task.total_steps ≤ detected then "completed" else "in_progress",
    deleteRequested := decide (task.total_steps ≤ detected),
    newStepsCompleted :=
      if task.steps_completed < detected then detected else task.steps_completed,
    taskComplete := decide (task.total_steps ≤ detected) }

/-- The persistence operation `SimpleCRM.update_task` performs
    (crm_simple.py lines 137-164): a `completed` status is carried out as a
    deletion, anything else as a progress patch. -/
inductive CRMOp where
  | deleteOp
  | patchOp (steps_completed : ℤ) (status : String)
deriving DecidableEq

/-- `SimpleCRM.update_task`'s dispatch on the status argument. -/
def update_task_op (steps_completed : ℤ) (status : String) : CRMOp :=
  if status = "completed" then CRMOp.deleteOp else CRMOp.patchOp steps_completed status

/-- C4: the progress-update write is requested iff the resolved step strictly
    exceeds `steps_completed`; on a non-advance no update is requested and the
    in-memory `steps_completed` stays unchanged.  (The completion-triggered
    `delete_task` of C9 is a separate signal, not a progress update.) -/
theorem reconcile_persists_iff_advance (task : TaskInst) (detected : ℤ) :
    ((reconcile task detected).updateRequested = true ↔
        task.steps_completed < detected) ∧
      (detected ≤ task.steps_completed →
        (reconcile task detected).updateRequested = false ∧
          (reconcile task detected).newStepsCompleted = task.steps_completed) := by
  refine ⟨by simp [reconcile], fun h => ?_⟩
  have hn : ¬ task.steps_completed < detected := by omega
  simp [reconcile, hn]

/-- C4 witness: a non-advancing detection (detected = stored = 1) requests
    no update and leaves the stored count at 1. -/
theorem reconcile_persists_iff_advance_witness :
    (((reconcile ⟨1, 3⟩ 1).updateRequested = true ↔ (1 : ℤ) < 1) ∧
      ((1 : ℤ) ≤ 1 → (reconcile ⟨1, 3⟩ 1).updateRequested = false ∧
        (reconcile ⟨1, 3⟩ 1).newStepsCompleted = 1)) :=
  reconcile_persists_iff_advance ⟨1, 3⟩ 1

/-- C9: when the detected step reaches `total_steps` the reconciler marks the
    task complete, enqueues a removal from the task store, and any update it
    issues carries status `completed` — which `update_task` carries out as a
    deletion, so completed tasks are not retained. -/
theorem completion_triggers_deletion (task : TaskInst) (detected sc : ℤ)
    (h : task.total_steps ≤ detected) :
    (reconcile task detected).taskComplete = true ∧
      (reconcile task detected).deleteRequested = true ∧
      (reconcile task detected).updateStatus = "completed" ∧
      update_task_op sc "completed" = CRMOp.deleteOp := by
  simp [reconcile, update_task_op, h]

/-- C9 witness: finishing a two-step task (detected = 2) triggers deletion. -/
theorem completion_triggers_deletion_witness :
    (reconcile ⟨1, 2⟩ 2).taskComplete = true ∧
      (reconcile ⟨1, 2⟩ 2).deleteRequested = true ∧
      (reconcile ⟨1, 2⟩ 2).updateStatus = "completed" ∧
      update_task_op 2 "completed" = CRMOp.deleteOp :=
  completion_triggers_deletion ⟨1, 2⟩ 2 2 (by decide)

/-- Kernel-executable exact rational addition (`a + b`; the library's `+` on
    `ℚ` is irreducible, so the matcher's arithmetic is written with `mkRat`
    and proved equal to the standard operations below). -/
def qadd (a b : ℚ) : ℚ := mkRat (a.num * b.den + b.num * a.den) (a.den * b.den)

/-- Kernel-executable exact rational multiplication (`a * b`). -/
def qmul (a b : ℚ) : ℚ := mkRat (a.num * b.num) (a.den * b.den)

/-- Kernel-executable exact rational subtraction (`a - b`). -/
def qsub (a b : ℚ) : ℚ := mkRat (a.num * b.den - b.num * a.den) (a.den * b.den)

/-- Kernel-executable `min` on `ℚ`. -/
def qmin (a b : ℚ) : ℚ := if Rat.blt b a then b else a

/-- Kernel-executable `max` on `ℚ`. -/
def qmax (a b : ℚ) : ℚ := if Rat.blt a b then b else a

theorem rat_den_cast_ne_zero (a : ℚ) : ((a.den : ℚ)) ≠ 0 := by
  exact_mod_cast a.den_pos.ne'

theorem qadd_eq (a b : ℚ) : qadd a b = a + b := by
  unfold qadd
  rw [Rat.mkRat_eq_div]
  conv_rhs => rw [← Rat.num_div_den a, ← Rat.num_div_den b]
  have ha := rat_den_cast_ne_zero a
  have hb := rat_den_cast_ne_zero b
  push_cast
  field_simp
  try ring

theorem qmul_eq (a b : ℚ) : qmul a b = a * b := by
  unfold qmul
  rw [Rat.mkRat_eq_div]
  conv_rhs => rw [← Rat.num_div_den a, ← Rat.num_div_den b]
  push_cast
  rw [div_mul_div_comm]

theorem qsub_eq (a b : ℚ) : qsub a b = a - b := by
  unfold qsub
  rw [Rat.mkRat_eq_div]
  conv_rhs => rw [← Rat.num_div_den a, ← Rat.num_div_den b]
  have ha := rat_den_cast_ne_zero a
  have hb := rat_den_cast_ne_zero b
  push_cast
  field_simp
  try ring

theorem qmin_eq (a b : ℚ) : qmin a b = min a b := by
  unfold qmin
  by_cases h : b < a
  · have hb : Rat.blt b a = true := h
    simp [hb, min_eq_right h.le]
  · have hb : Rat.blt b a = false := Bool.eq_false_iff.mpr h
    simp [hb, min_eq_left (not_lt.mp h)]

theorem qmax_eq (a b : ℚ) : qmax a b = max a b := by
  unfold qmax
  by_cases h : a < b
  · have hb : Rat.blt a b = true := h
    simp [hb, max_eq_right h.le]
  · have hb : Rat.blt a b = false := Bool.eq_false_iff.mpr h
    simp [hb, max_eq_left (not_lt.mp h)]

/-- A character of `[a-z0-9]` (tokenisation runs on lower-cased text). -/
def isWordChar (c : Char) : Bool := ('a' ≤ c && c ≤ 'z') || ('0' ≤ c && c ≤ '9')

/-- `re.findall(r"[a-z0-9]+", text)`: maximal runs of word characters,
    accumulated in reverse in `cur`. -/
def tokenizeAux : List Char → List Char → List String
  | [], cur => if cur.isEmpty then [] else [String.mk cur.reverse]
  | c :: rest, cur =>
    if isWordChar c then tokenizeAux rest (c :: cur)
    else if cur.isEmpty then tokenizeAux rest []
    else String.mk cur.reverse :: tokenizeAux rest []

/-- `_tokenize` (action_matcher.py lines 12-17). -/
def tokenize (s : String) : List String := tokenizeAux (lowerStr s).toList []

/-- `_jaccard` (action_matcher.py lines 20-25): 0 on two empty sets, else
    `|a ∩ b| / |a ∪ b|` guarded against an empty union. -/
def jaccard (a b : Finset String) : ℚ :=
  if a = ∅ ∧ b = ∅ then 0
  else if (a ∪ b).card = 0 then 0
  else mkRat ((a ∩ b).card : ℤ) ((a ∪ b).card)

/-- Python `str.strip()`: the whitespace characters it removes. -/
def isSpaceChar (c : Char) : Bool :=
  c = ' ' || c = '\t' || c = '\n' || c = '\r' || c = '\x0b' || c = '\x0c'

/-- Python `str.strip()`. -/
def pyStrip (s : String) : String :=
  String.mk (((s.toList.dropWhile isSpaceChar).reverse.dropWhile isSpaceChar).reverse)

/-- Python `' '.join(ss)`. -/
def joinSpace : List String → String
  | [] => ""
  | [x] => x
  | x :: xs => x ++ " " ++ joinSpace xs

/-- Python `round(x, 3)` modelled on exact rationals: round half to even. -/
def roundHalfEven (q : ℚ) : ℤ :=
  let f := q.floor
  let r := qsub q (mkRat f 1)
  if Rat.blt r (mkRat 1 2) then f
  else if Rat.blt (mkRat 1 2) r then f + 1
  else if f % 2 = 0 then f else f + 1

/-- Python `round(x, 3)`. -/
def round3 (q : ℚ) : ℚ := mkRat (roundHalfEven (qmul (mkRat 1000 1) q)) 1000

/-- One entry of `ActionMatcher._index` (action_matcher.py lines 40-62). -/
structure IndexEntry where
  platform : String
  key : String
  id : String
  title : String
  tokens : Finset String
  step_messages : List String
deriving DecidableEq

/-- action_matcher.py lines 48-53: selector-dict messages of one step
    (plain-string selectors are skipped), in listed order. -/
def selectorMsgs (s : StepDef) : List String :=
  s.selectors.filterMap (fun sel =>
    match sel with
    | Selector.objSel _ m _ => some (m.getD "")
    | _ => none)

/-- action_matcher.py lines 47-53: selector messages of each step followed by
    the step's own message, over all steps in order. -/
def stepMsgsOf (adef : ActionDef) : List String :=
  adef.steps.foldr (fun s acc => selectorMsgs s ++ (s.message.getD "" :: acc)) []

/-- action_matcher.py line 54: the token set of title plus step messages. -/
def entryTokens (title : String) (msgs : List String) : Finset String :=
  (tokenize (title ++ " " ++ joinSpace msgs)).toFinset

/-- `ActionMatcher.__init__`'s index (action_matcher.py lines 40-62). -/
def actionIndex (kb : KB) : List IndexEntry :=
  kb.platforms.foldr (fun pp acc =>
    pp.2.actions.map (fun kv =>
      let title := kv.2.title.getD ""
      let msgs := stepMsgsOf kv.2
      { platform := pp.1, key := kv.1, id := kv.2.id.getD kv.1, title := title,
        tokens := entryTokens title msgs, step_messages := msgs }) ++ acc) []

/-- The optional context of `ActionMatcher.match`. -/
structure MatchCtx where
  url : Option String := none
deriving DecidableEq

/-- One result dict of `ActionMatcher.match` (action_matcher.py lines 78-85). -/
structure MatchResult where
  id : String
  platform : String
  key : String
  title : String
  confidence : ℚ
  snippet : String
deriving DecidableEq

/-- action_matcher.py line 69: `context and 'url' in context and
    item['platform'] in context['url'].lower()`. -/
def urlBonusApplies (ctx : Option MatchCtx) (it : IndexEntry) : Bool :=
  match ctx with
  | some c =>
    match c.url with
    | some u => containsSub it.platform (lowerStr u)
    | none => false
  | none => false

/-- action_matcher.py lines 68-70: Jaccard score plus the capped +0.15 URL
    bonus (`min(1.0, score + 0.15)`). -/
def bonusScore (q : String) (ctx : Option MatchCtx) (it : IndexEntry) : ℚ :=
  if urlBonusApplies ctx it then
    qmin (mkRat 1 1) (qadd (jaccard (tokenize q).toFinset it.tokens) (mkRat 3 20))
  else jaccard (tokenize q).toFinset it.tokens

/-- action_matcher.py lines 68-72: the final score, with the exact-title
    override `max(score, 0.9)`. -/
def rawScore (q : String) (ctx : Option MatchCtx) (it : IndexEntry) : ℚ :=
  if lowerStr (pyStrip q) = lowerStr (pyStrip it.title) then
    qmax (bonusScore q ctx it) (mkRat 9 10)
  else bonusScore q ctx it

/-- action_matcher.py lines 73-77: the first non-empty step message sharing a
    token with the query. -/
def snippetOf (q : String) (it : IndexEntry) : String :=
  (it.step_messages.find? (fun sm =>
    !strEmpty sm && (tokenize q).any (fun t => (tokenize sm).contains t))).getD ""

/-- One result row of `ActionMatcher.match`, with `round(score, 3)`. -/
def matchEntry (q : String) (ctx : Option MatchCtx) (it : IndexEntry) : MatchResult :=
  { id := it.id, platform := it.platform, key := it.key, title := it.title,
    confidence := round3 (rawScore q ctx it), snippet := snippetOf q it }

/-- Stable descending insertion by confidence (Python's stable
    `sorted(..., reverse=True)`): insert before the first strictly smaller
    element, after equal ones. -/
def ordInsertDesc (a : MatchResult) : List MatchResult → List MatchResult
  | [] => [a]
  | b :: l =>
    if Rat.blt a.confidence b.confidence then b :: ordInsertDesc a l
    else a :: b :: l

/-- Stable descending sort by confidence. -/
def sortDesc : List MatchResult → List MatchResult
  | [] => []
  | a :: l => ordInsertDesc a (sortDesc l)

/-- `ActionMatcher.match` (action_matcher.py lines 64-88): score every index
    entry, sort by confidence descending, drop zero scores, truncate to
    `top_k` (default 5). -/
def matchAction (kb : KB) (q : String) (ctx : Option MatchCtx) (top_k : ℕ) :
    List MatchResult :=
  ((sortDesc ((actionIndex kb).map (matchEntry q ctx))).filter
    (fun r => Rat.blt 0 r.confidence)).take top_k

theorem mem_ordInsertDesc (a x : MatchResult) (l : List MatchResult) :
    x ∈ ordInsertDesc a l ↔ x = a ∨ x ∈ l := by
  induction l with
  | nil => simp [ordInsertDesc]
  | cons b l ih =>
    by_cases h : Rat.blt a.confidence b.confidence = true
    · simp only [ordInsertDesc, if_pos h, List.mem_cons, ih]
      tauto
    · simp [ordInsertDesc, h]

theorem mem_sortDesc (x : MatchResult) (l : List MatchResult) :
    x ∈ sortDesc l ↔ x ∈ l := by
  induction l with
  | nil => simp [sortDesc]
  | cons a l ih => simp [sortDesc, mem_ordInsertDesc, ih]

theorem length_ordInsertDesc (a : MatchResult) (l : List MatchResult) :
    (ordInsertDesc a l).length = l.length + 1 := by
  induction l with
  | nil => simp [ordInsertDesc]
  | cons b l ih =>
    by_cases h : Rat.blt a.confidence b.confidence = true
    · simp only [ordInsertDesc, if_pos h, List.length_cons, ih]
    · simp [ordInsertDesc, h]

theorem length_sortDesc (l : List MatchResult) : (sortDesc l).length = l.length := by
  induction l with
  | nil => simp [sortDesc]
  | cons a l ih => simp [sortDesc, length_ordInsertDesc, ih]

theorem jaccard_empty_left (b : Finset String) : jaccard ∅ b = 0 := by
  unfold jaccard
  split_ifs <;> simp [Finset.empty_inter, Rat.mkRat_eq_div]

theorem roundHalfEven_ge_floor (q : ℚ) : q.floor ≤ roundHalfEven q := by
  unfold roundHalfEven
  simp only []
  split_ifs <;> omega

theorem round3_ge_of_ge (q : ℚ) (h : 9 / 10 ≤ q) : 9 / 10 ≤ round3 q := by
  have hq : qmul (mkRat 1000 1) q = 1000 * q := by
    rw [qmul_eq]
    norm_num [Rat.mkRat_eq_div]
  have h1 : (900 : ℤ) ≤ (qmul (mkRat 1000 1) q).floor := by
    rw [hq, Rat.le_floor]
    push_cast
    linarith
  have h2 := roundHalfEven_ge_floor (qmul (mkRat 1000 1) q)
  have h3 : (900 : ℚ) ≤ (roundHalfEven (qmul (mkRat 1000 1) q) : ℚ) := by
    exact_mod_cast le_trans h1 h2
  unfold round3
  rw [Rat.mkRat_eq_div]
  rw [show (9 / 10 : ℚ) = 900 / 1000 by norm_num]
  push_cast
  exact (div_le_div_iff_of_pos_right (by norm_num)).mpr h3

/-- C7 counterexample knowledge base: one GitHub action with a non-blank
    title and no steps. -/
def kbGit : KB :=
  { platforms := [("github",
      { actions := [("create_repo",
          { id := some "github_create_repo", title := some "Create Repo",
            steps := [] })] })] }

/-- C7: with an empty query every Jaccard score is 0, but a context URL
    containing the platform key adds the flat +0.15 bonus, so `match("", ctx)`
    returns a non-empty result list — contradicting the claim. -/
theorem empty_query_can_return_nonempty :
    matchAction kbGit "" (some { url := some "https://github.com/" }) 5 ≠ [] := by
  decide

/-- C7 (amended): `match("", ctx)` returns the empty sequence provided no
    indexed definition receives the URL-platform bonus from `ctx` and no
    definition's title is blank after trimming (otherwise the +0.15 bonus or
    the blank-title exact-title override can push a zero Jaccard score
    above 0). -/
theorem empty_query_returns_empty (kb : KB) (ctx : Option MatchCtx)
    (h : ∀ it ∈ actionIndex kb, urlBonusApplies ctx it = false ∧
      lowerStr (pyStrip it.title) ≠ "") :
    matchAction kb "" ctx 5 = [] := by
  unfold matchAction
  have hall : ∀ r ∈ sortDesc ((actionIndex kb).map (matchEntry "" ctx)),
      r.confidence = 0 := by
    intro r hr
    rw [mem_sortDesc] at hr
    obtain ⟨it, hit, rfl⟩ := List.mem_map.mp hr
    obtain ⟨hb, ht⟩ := h it hit
    have h0 : lowerStr (pyStrip "") = "" := by decide
    have hraw : rawScore "" ctx it = 0 := by
      have hcond : ¬ lowerStr (pyStrip "") = lowerStr (pyStrip it.title) :=
        fun hc => ht (hc.symm.trans h0)
      have hbs : bonusScore "" ctx it = 0 := by
        unfold bonusScore
        rw [hb]
        simp only [Bool.false_eq_true, if_false]
        have he : (tokenize "").toFinset = (∅ : Finset String) := rfl
        rw [he, jaccard_empty_left]
      unfold rawScore
      rw [if_neg hcond, hbs]
    show round3 (rawScore "" ctx it) = 0
    rw [hraw]
    decide
  have hfil : (sortDesc ((actionIndex kb).map (matchEntry "" ctx))).filter
      (fun r => Rat.blt 0 r.confidence) = [] := by
    rw [List.filter_eq_nil_iff]
    intro a ha
    rw [hall a ha]
    decide
  rw [hfil]
  simp

/-- C7 witness: with no context the empty query matches nothing. -/
theorem empty_query_returns_empty_witness : matchAction kbGit "" none 5 = [] :=
  empty_query_returns_empty kbGit none (by decide)

/-- C8 counterexample knowledge base: six definitions sharing one title. -/
def kbSixTitles : KB :=
  { platforms := [("github",
      { actions := [
          ("a1", { id := some "a1", title := some "Create Thing" }),
          ("a2", { id := some "a2", title := some "Create Thing" }),
          ("a3", { id := some "a3", title := some "Create Thing" }),
          ("a4", { id := some "a4", title := some "Create Thing" }),
          ("a5", { id := some "a5", title := some "Create Thing" }),
          ("a6", { id := some "a6", title := some "Create Thing" })] })] }

/-- C8: the sixth definition's title equals the query exactly, yet the
    `top_k = 5` truncation drops it (five equally-ranked entries precede it in
    the stable descending order), so the result list does not contain it —
    contradicting the claim for that definition. -/
theorem exact_title_truncated_by_top_k :
    (∃ it ∈ actionIndex kbSixTitles, it.id = "a6" ∧
        lowerStr (pyStrip "create thing") = lowerStr (pyStrip it.title)) ∧
      ∀ r ∈ matchAction kbSixTitles "create thing" none 5, r.id ≠ "a6" := by
  decide

/-- The head of a computed index (with an inert default), used to name a
    concrete index entry in witnesses. -/
def idxHead (kb : KB) : IndexEntry :=
  (actionIndex kb).headD
    { platform := "", key := "", id := "", title := "", tokens := ∅,
      step_messages := [] }

/-- C8 (amended): if the query equals an indexed definition's title after
    trimming and case-folding, that definition's result row scores at least
    0.9, and whenever the knowledge base indexes at most `top_k = 5`
    definitions the result list contains that row (with more than 5,
    equally-ranked entries can truncate it away). -/
theorem exact_title_confidence_ge (kb : KB) (q : String) (ctx : Option MatchCtx)
    (it : IndexEntry) (hlen : (actionIndex kb).length ≤ 5)
    (hit : it ∈ actionIndex kb)
    (hq : lowerStr (pyStrip q) = lowerStr (pyStrip it.title)) :
    matchEntry q ctx it ∈ matchAction kb q ctx 5 ∧
      9 / 10 ≤ (matchEntry q ctx it).confidence := by
  have hscore : 9 / 10 ≤ rawScore q ctx it := by
    unfold rawScore
    rw [if_pos hq, qmax_eq]
    have h910 : mkRat 9 10 = (9 / 10 : ℚ) := by
      rw [Rat.mkRat_eq_div]
      norm_num
    rw [h910]
    exact le_max_right _ _
  have hconf : 9 / 10 ≤ (matchEntry q ctx it).confidence :=
    round3_ge_of_ge _ hscore
  refine ⟨?_, hconf⟩
  unfold matchAction
  have hmem1 : matchEntry q ctx it ∈ (actionIndex kb).map (matchEntry q ctx) :=
    List.mem_map_of_mem _ hit
  have hmem2 : matchEntry q ctx it ∈
      sortDesc ((actionIndex kb).map (matchEntry q ctx)) :=
    (mem_sortDesc _ _).mpr hmem1
  have hpos : (0 : ℚ) < (matchEntry q ctx it).confidence :=
    lt_of_lt_of_le (by norm_num) hconf
  have hmem3 : matchEntry q ctx it ∈
      (sortDesc ((actionIndex kb).map (matchEntry q ctx))).filter
        (fun r => Rat.blt 0 r.confidence) :=
    List.mem_filter.mpr ⟨hmem2, hpos⟩
  have hflen : ((sortDesc ((actionIndex kb).map (matchEntry q ctx))).filter
      (fun r => Rat.blt 0 r.confidence)).length ≤ 5 := by
    calc ((sortDesc ((actionIndex kb).map (matchEntry q ctx))).filter
        (fun r => Rat.blt 0 r.confidence)).length
        ≤ (sortDesc ((actionIndex kb).map (matchEntry q ctx))).length :=
          List.length_filter_le _ _
      _ = ((actionIndex kb).map (matchEntry q ctx)).length := length_sortDesc _
      _ = (actionIndex kb).length := List.length_map _ _
      _ ≤ 5 := hlen
  rw [List.take_of_length_le hflen]
  exact hmem3

/-- C8 witness knowledge base: a single definition titled
    "Create Your First GitHub Repository". -/
def kbRepoTitle : KB :=
  { platforms := [("github",
      { actions := [("create_repository",
          { id := some "github_create_repository",
            title := some "Create Your First GitHub Repository",
            steps :=
              [{ message := some "Click the plus icon to create a new repository" }]
          })] })] }

/-- C8 witness: a differently-cased, padded copy of the title scores at least
    0.9 and appears in the results. -/
theorem exact_title_confidence_ge_witness :
    matchEntry " create your FIRST github repository  " none (idxHead kbRepoTitle) ∈
        matchAction kbRepoTitle " create your FIRST github repository  " none 5 ∧
      9 / 10 ≤ (matchEntry " create your FIRST github repository  " none
        (idxHead kbRepoTitle)).confidence :=
  exact_title_confidence_ge kbRepoTitle " create your FIRST github repository  " none
    (idxHead kbRepoTitle) (by decide) (by decide) (by decide)
